import Mathlib

/-!
Verification of the offline attendance capture and sync subsystem of the
attendance web application.

The embedding follows the TypeScript source:
* `src/components/admin/TeacherForm.tsx` — the student QR scanner
  (`processAttendance`, `handleMarkWithoutLocation`), the localStorage
  persistence helpers (`setStoredData`) and the mock remote store
  (`mockApiService.markAttendance`, `mockApiService.login`, `MOCK_ADMIN`);
* `src/App.tsx` — the sync coordinator (`syncOfflineData`) and the
  connectivity-gated effect that triggers it;
* `src/components/teacher/TeacherDashboard.tsx` — the session-code
  generator (`generateCode`).

JavaScript strings are Lean `String`s; `Date.now()` readings and the
per-submission network outcomes are passed as explicit parameters, since in
the source they come from the platform clock and the network.
-/

namespace Attendance

/-- Role of a user, from `types.ts` (`'Admin' | 'Teacher' | 'Student'`). -/
inductive Role
  | Admin
  | Teacher
  | Student
deriving DecidableEq, Repr

/-- User, from `types.ts`.  Optional fields of the interface become `Option`. -/
structure User where
  id : String
  name : String
  email : String
  role : Role
  password : Option String := none
  phone : Option String := none
  address : Option String := none
  specialization : Option String := none
  enrollmentNumber : Option String := none
deriving DecidableEq, Repr

/-- Geographic position, from `types.ts` (`{ latitude: number; longitude: number }`).
Coordinates are opaque data for every property considered here, so they are
embedded as integers. -/
structure Location where
  latitude : Int
  longitude : Int
deriving DecidableEq, Repr

/-- An attendance record before the remote store assigns an identity
(`Omit<AttendanceRecord, 'id'>` in the source). The `location` field is a
complete coordinate pair or `none`, mirroring the union type
`{latitude; longitude} | null`. -/
structure AttendanceData where
  studentId : String
  studentName : String
  studentEnrollmentNumber : String
  teacherId : String
  sessionId : String
  timestamp : String
  location : Option Location
deriving DecidableEq, Repr

/-- A stored attendance record: the submitted data plus the identity assigned
by the remote store (`AttendanceRecord` in `types.ts`). -/
structure AttendanceRecord where
  id : String
  data : AttendanceData
deriving DecidableEq, Repr

/-- Embeds `sessionId.split('-')[0]` from `processAttendance`: the prefix of
the string before the first `'-'`, or the whole string when it has none. -/
def firstField (s : String) : String :=
  (s.data.takeWhile (fun c => c != '-')).asString

/-- Embeds `` `${user.id}-SESSION-${Date.now()}` `` from `generateCode` in
`TeacherDashboard.tsx`; number interpolation renders the clock reading in
decimal, i.e. `Nat.repr`. -/
def generateCode (teacherId : String) (now : Nat) : String :=
  teacherId ++ "-SESSION-" ++ Nat.repr now

/-- Embeds `` `att${Date.now()}` ``, the identity the mock remote store
assigns on acceptance. -/
def attId (now : Nat) : String :=
  "att" ++ Nat.repr now

/-- The record the remote store creates from a submission:
`{ ...record, id: att<now> }`. -/
def freshRecord (now : Nat) (d : AttendanceData) : AttendanceRecord :=
  { id := attId now, data := d }

/-- Embeds `mockApiService.markAttendance`: appends the record, with a fresh
identity taken from the clock, to the module-level `attendanceRecords` array
and returns the new record.  State (the array) is passed explicitly. -/
def markAttendance (now : Nat) (record : AttendanceData)
    (store : List AttendanceRecord) : AttendanceRecord × List AttendanceRecord :=
  let newRecord := freshRecord now record
  (newRecord, store ++ [newRecord])

/-- The candidate entry assembled by `processAttendance` once the code passed
validation (the `attendanceData` object literal in the source).  The source
reads `user.enrollmentNumber!`; the non-null assertion is embedded as
`Option.getD`. -/
def buildAttendance (user : User) (now : String) (location : Option Location)
    (decodedText : String) : AttendanceData :=
  { studentId := user.id
    studentName := user.name
    studentEnrollmentNumber := user.enrollmentNumber.getD ""
    teacherId := firstField decodedText
    sessionId := decodedText
    timestamp := now
    location := location }

/-- The scanner-visible state `processAttendance` touches: the persisted
pending queue and the remote store's record array. -/
structure ScanState where
  pending : List AttendanceData
  store : List AttendanceRecord
deriving DecidableEq, Repr

/-- Embeds `processAttendance` from the QR scanner in the student dashboard:
derive the teacher identity by splitting the scanned code on `'-'`, throw on a
falsy (empty) teacher or session identity, then either append the entry to the
pending queue (offline) or submit it to the remote store (online).  `now` is
the ISO capture timestamp, `nowId` the clock reading the store would use for
the identity. -/
def processAttendance (user : User) (isOffline : Bool) (now : String)
    (nowId : Nat) (location : Option Location) (decodedText : String)
    (s : ScanState) : Except String ScanState :=
  let sessionId := decodedText
  let teacherId := firstField sessionId
  if teacherId = "" ∨ sessionId = "" then
    Except.error "Invalid QR code format."
  else if isOffline then
    Except.ok { pending := s.pending ++ [buildAttendance user now location sessionId]
                store := s.store }
  else
    Except.ok { pending := s.pending
                store := (markAttendance nowId (buildAttendance user now location sessionId) s.store).2 }

/-- Embeds `handleMarkWithoutLocation`: returns immediately when no scan is
pending, otherwise reruns `processAttendance` with a `null` location on the
saved scan payload. -/
def handleMarkWithoutLocation (user : User) (isOffline : Bool) (now : String)
    (nowId : Nat) (pendingScanData : Option String) (s : ScanState) :
    Except String ScanState :=
  match pendingScanData with
  | none => Except.ok s
  | some code => processAttendance user isOffline now nowId none code s

/-- Appending a capture to the pending queue, the offline branch of
`processAttendance` (`setPendingAttendance([...pendingAttendance, attendanceData])`). -/
def enqueue (pending : List AttendanceData) (r : AttendanceData) :
    List AttendanceData :=
  pending ++ [r]

/-- All submissions of a batch of the given size succeeded; index `i` stands
for the outcome of the submission of the `i`-th queued record. -/
def allOk (ok : Nat → Bool) (n : Nat) : Bool :=
  (List.range n).all ok

/-- The records a drained batch adds to the remote store: each queued record
whose submission succeeded is appended, in batch order, with the identity the
store assigns from its clock reading (`assignId i` is the clock value seen by
the `i`-th submission). -/
def storedBatch (ok : Nat → Bool) (assignId : Nat → Nat)
    (batch : List AttendanceData) : List AttendanceRecord :=
  batch.enum.filterMap fun p =>
    if ok p.1 then some (freshRecord (assignId p.1) p.2) else none

/-- Result of one run of the sync coordinator: which queued records were
handed to `markAttendance` (in order), the pending queue afterwards, and the
remote store afterwards. -/
structure SyncResult where
  submitted : List AttendanceData
  pending : List AttendanceData
  store : List AttendanceRecord
deriving DecidableEq, Repr

/-- Embeds `syncOfflineData` from `App.tsx`: guarded by
`pendingAttendance.length > 0 && !isOffline`; submits every queued record via
`mockApiService.markAttendance` under `Promise.all`; when every submission
succeeds the queue is set to `[]`, and when any fails the `catch` branch
leaves the queue untouched.  Submissions that succeeded reach the store either
way. -/
def syncOfflineData (isOffline : Bool) (ok : Nat → Bool) (assignId : Nat → Nat)
    (pending : List AttendanceData) (store : List AttendanceRecord) : SyncResult :=
  if pending.length > 0 ∧ isOffline = false then
    if allOk ok pending.length then
      { submitted := pending, pending := [], store := store ++ storedBatch ok assignId pending }
    else
      { submitted := pending, pending := pending, store := store ++ storedBatch ok assignId pending }
  else
    { submitted := [], pending := pending, store := store }

/-- A drain interleaved with captures: `syncOfflineData` closed over the queue
snapshot; `mid` are the entries appended to the live queue between the
snapshot read and the drain's completion.  On full success the source runs
`setPendingAttendance([])`, replacing the live queue (snapshot plus `mid`)
with the empty list; on failure the `catch` branch leaves the live queue as it
stands. -/
def drainWithMidEnqueue (ok : Nat → Bool) (assignId : Nat → Nat)
    (snapshot mid : List AttendanceData) (store : List AttendanceRecord) : SyncResult :=
  if snapshot.length > 0 then
    if allOk ok snapshot.length then
      { submitted := snapshot, pending := [], store := store ++ storedBatch ok assignId snapshot }
    else
      { submitted := snapshot, pending := snapshot ++ mid, store := store ++ storedBatch ok assignId snapshot }
  else
    { submitted := [], pending := mid, store := store }

/-- Embeds `setStoredData` from the persistence layer: `localStorage.setItem`
inside a `try` whose `catch` only logs.  `writeFails` is whether the platform
write throws (quota exceeded, serialization error).  The result is the durable
content afterwards, paired with the error surfaced to the caller — which the
source never surfaces. -/
def setStoredData {α : Type} (writeFails : Bool) (durable : α) (value : α) :
    α × Option String :=
  if writeFails then (durable, none) else (value, none)

/-- The hard-coded admin user `MOCK_ADMIN`; the object literal in the source
has no `password` property. -/
def MOCK_ADMIN : User :=
  { id := "admin1", name := "Admin User", email := "admin@school.com", role := Role.Admin }

/-- Embeds the destructuring `const { password, ...userWithoutPassword } = user`. -/
def stripPassword (u : User) : User :=
  { u with password := none }

/-- Embeds `toLowerCase()` as used by the login's name comparison. -/
def lowerStr (s : String) : String :=
  (s.data.map Char.toLower).asString

/-- Embeds `mockApiService.login`: the hard-coded admin short-circuit, then a
case-insensitive name lookup over teachers and students followed by a password
check; on success the password is stripped from the returned user. -/
def login (teachers students : List User) (identifier password : String) :
    Except String User :=
  if identifier = "admin" ∧ password = "123" then
    Except.ok MOCK_ADMIN
  else
    match (teachers ++ students).find? (fun u => lowerStr u.name = lowerStr identifier) with
    | some u =>
        if u.password = some password then Except.ok (stripPassword u)
        else Except.error "Invalid credentials"
    | none => Except.error "Invalid credentials"

/-! Helper lemmas. -/

/-- Accumulator lemma for the core decimal-digit routine behind `Nat.repr`. -/
theorem toDigitsCore_eq_append (b : Nat) :
    ∀ (f n : Nat) (acc : List Char),
      Nat.toDigitsCore b f n acc = Nat.toDigitsCore b f n [] ++ acc := by
  intro f
  induction f with
  | zero => intro n acc; rfl
  | succ f ih =>
      intro n acc
      simp only [Nat.toDigitsCore]
      by_cases h : n / b = 0
      · simp [h]
      · simp only [if_neg h]
        rw [ih (n / b) (Nat.digitChar (n % b) :: acc), ih (n / b) [Nat.digitChar (n % b)]]
        simp

/-- Numeric value of a decimal digit character. -/
def digitVal (c : Char) : Nat := c.toNat - '0'.toNat

/-- Decimal evaluation of a digit string, inverse to `Nat.toDigits 10`. -/
def ofDigits10 (l : List Char) : Nat :=
  l.foldl (fun acc c => 10 * acc + digitVal c) 0

theorem ofDigits10_append_singleton (l : List Char) (c : Char) :
    ofDigits10 (l ++ [c]) = 10 * ofDigits10 l + digitVal c := by
  simp [ofDigits10, List.foldl_append]

theorem digitVal_digitChar : ∀ m, m < 10 → digitVal (Nat.digitChar m) = m := by decide

theorem ofDigits10_toDigitsCore :
    ∀ (f n : Nat), n < f → ofDigits10 (Nat.toDigitsCore 10 f n []) = n := by
  intro f
  induction f with
  | zero => intro n h; omega
  | succ f ih =>
      intro n h
      simp only [Nat.toDigitsCore]
      by_cases h0 : n / 10 = 0
      · have hlt : n < 10 := by omega
        simp [h0, ofDigits10, Nat.mod_eq_of_lt hlt, digitVal_digitChar n hlt]
      · have hn : 0 < n := by
          by_contra hc
          have : n = 0 := by omega
          subst this
          simp at h0
        have hdf : n / 10 < f := by
          have h1 : n / 10 < n := Nat.div_lt_self hn (by omega)
          omega
        rw [if_neg h0, toDigitsCore_eq_append, ofDigits10_append_singleton,
          ih (n / 10) hdf, digitVal_digitChar (n % 10) (Nat.mod_lt n (by omega))]
        omega

theorem repr_inj {m n : Nat} (h : Nat.repr m = Nat.repr n) : m = n := by
  have hl : Nat.toDigits 10 m = Nat.toDigits 10 n := by
    have := congrArg String.data h
    simpa [Nat.repr, List.asString] using this
  have hm := ofDigits10_toDigitsCore (m + 1) m (by omega)
  have hn := ofDigits10_toDigitsCore (n + 1) n (by omega)
  simp only [Nat.toDigits] at hl
  rw [hl] at hm
  rw [hm] at hn
  exact hn

theorem attId_inj {t1 t2 : Nat} (h : attId t1 = attId t2) : t1 = t2 := by
  apply repr_inj
  have hd := congrArg String.data h
  simp only [attId, String.data_append] at hd
  exact String.ext (List.append_cancel_left hd)

theorem takeWhile_append_of_stop {p : Char → Bool} :
    ∀ (l : List Char) (c : Char) (r : List Char),
      (∀ x ∈ l, p x = true) → p c = false →
      (l ++ c :: r).takeWhile p = l := by
  intro l
  induction l with
  | nil => intro c r _ hc; simp [List.takeWhile_cons, hc]
  | cons a t ih =>
      intro c r hl hc
      have ha : p a = true := hl a (by simp)
      simp only [List.cons_append, List.takeWhile_cons, ha, if_true]
      rw [ih c r (fun x hx => hl x (by simp [hx])) hc]

/-- The session-code parser recovers the teacher identity from a generated
code, as long as the identity itself contains no dash. -/
theorem firstField_generateCode (T : String) (ts : Nat)
    (hdash : ∀ c ∈ T.data, c ≠ '-') :
    firstField (generateCode T ts) = T := by
  have hdata : (generateCode T ts).data =
      T.data ++ '-' :: ("SESSION-".data ++ (Nat.repr ts).data) := by
    simp [generateCode, String.data_append]
  have hp : ∀ x ∈ T.data, (x != '-') = true := by
    intro x hx
    simpa using hdash x hx
  rw [firstField, hdata, takeWhile_append_of_stop T.data '-' _ hp (by simp)]
  exact String.ext (by simp [List.asString])

theorem firstField_ne_empty_of_ne (T : String) (ts : Nat) (hne : T ≠ "")
    (hdash : ∀ c ∈ T.data, c ≠ '-') :
    firstField (generateCode T ts) ≠ "" := by
  rw [firstField_generateCode T ts hdash]; exact hne

theorem generateCode_ne_empty (T : String) (ts : Nat) :
    generateCode T ts ≠ "" := by
  intro h
  have hd := congrArg String.data h
  rw [show (generateCode T ts).data
        = T.data ++ '-' :: ("SESSION-".data ++ (Nat.repr ts).data) from by
      simp [generateCode, String.data_append]] at hd
  simp at hd

theorem foldl_enqueue (rs : List AttendanceData) :
    ∀ init : List AttendanceData, rs.foldl enqueue init = init ++ rs := by
  induction rs with
  | nil => intro init; simp
  | cons r t ih => intro init; simp [enqueue, ih]

/-- The queued records whose submission succeeded, in batch order. -/
def successData (ok : Nat → Bool) (batch : List AttendanceData) :
    List AttendanceData :=
  batch.enum.filterMap fun p => if ok p.1 then some p.2 else none

theorem storedBatch_map_data (ok : Nat → Bool) (assignId : Nat → Nat)
    (batch : List AttendanceData) :
    (storedBatch ok assignId batch).map AttendanceRecord.data = successData ok batch := by
  rw [storedBatch, successData, List.map_filterMap]
  apply List.filterMap_congr
  intro p _
  by_cases h : ok p.1 = true
  · simp [h, freshRecord]
  · simp [h]

theorem successData_all_true (batch : List AttendanceData) :
    successData (fun _ => true) batch = batch := by
  rw [successData]
  have : (fun p : Nat × AttendanceData => if (fun _ : Nat => true) p.1 then some p.2 else none)
      = fun p : Nat × AttendanceData => some p.2 := by
    funext p; simp
  rw [this]
  rw [show (fun p : Nat × AttendanceData => some p.2)
      = some ∘ (Prod.snd : Nat × AttendanceData → AttendanceData) from rfl]
  rw [List.filterMap_eq_map, List.enum_map_snd]

theorem allOk_true (n : Nat) : allOk (fun _ => true) n = true := by
  simp [allOk]

/-! Concrete sample values, taken from the initial mock data of the source. -/

/-- The seeded student `student1` from `initialStudents`. -/
def sampleStudent : User :=
  { id := "student1", name := "Alice Johnson", email := "alice.j@school.com",
    role := Role.Student, password := some "password123",
    enrollmentNumber := some "S001" }

/-- The seeded teacher `teacher1` from `initialTeachers`. -/
def sampleTeacher : User :=
  { id := "teacher1", name := "Dr. Evelyn Reed", email := "e.reed@school.com",
    role := Role.Teacher, password := some "password123",
    phone := some "123-456-7890", address := some "123 Oak St",
    specialization := some "Physics" }

/-- A capture timestamp. -/
def sampleTime : String := "2023-11-14T22:13:20.000Z"

/-- The session code of the spec's offline-capture example. -/
def sampleCode : String := "teacher1-SESSION-1700000000000"

/-- A pending capture of `sampleStudent` in `sampleCode`, without location. -/
def sampleData : AttendanceData :=
  { studentId := "student1", studentName := "Alice Johnson",
    studentEnrollmentNumber := "S001", teacherId := "teacher1",
    sessionId := sampleCode, timestamp := sampleTime, location := none }

/-- A pending capture of the seeded student `student2`. -/
def sampleData2 : AttendanceData :=
  { sampleData with
    studentId := "student2"
    studentName := "Bob Williams"
    studentEnrollmentNumber := "S002" }

/-- A pending capture of the seeded student `student3`. -/
def sampleData3 : AttendanceData :=
  { sampleData with
    studentId := "student3"
    studentName := "Charlie Brown"
    studentEnrollmentNumber := "S003" }

/-! Claims. -/

/-- C3: for every valid session code of the form `T-SESSION-<ts>` (a teacher
identity with no dash in it), the record builder extracts the teacher identity
`T` exactly — the prefix of the raw code before the first `-` — and stores the
full scanned code as the session identity, and processing such a code
succeeds. -/
theorem c3_teacher_extraction (T : String) (ts : Nat) (user : User)
    (isOffline : Bool) (now : String) (nowId : Nat) (loc : Option Location)
    (s : ScanState) (hne : T ≠ "") (hdash : ∀ c ∈ T.data, c ≠ '-') :
    firstField (generateCode T ts) = T ∧
    (buildAttendance user now loc (generateCode T ts)).teacherId = T ∧
    (buildAttendance user now loc (generateCode T ts)).sessionId = generateCode T ts ∧
    ∃ out, processAttendance user isOffline now nowId loc (generateCode T ts) s
        = Except.ok out := by
  have hff := firstField_generateCode T ts hdash
  refine ⟨hff, by simp [buildAttendance, hff], rfl, ?_⟩
  have hg : ¬ (firstField (generateCode T ts) = "" ∨ generateCode T ts = "") := by
    push_neg
    exact ⟨firstField_ne_empty_of_ne T ts hne hdash, generateCode_ne_empty T ts⟩
  simp only [processAttendance]
  rw [if_neg hg]
  cases isOffline
  · exact ⟨_, rfl⟩
  · exact ⟨_, rfl⟩

/-- Witness for C3: the generated code `teacher1-SESSION-1700000000000` parses
back to teacher `teacher1` and is accepted. -/
theorem c3_teacher_extraction_witness :
    firstField (generateCode "teacher1" 1700000000000) = "teacher1" ∧
    (buildAttendance sampleStudent sampleTime none
        (generateCode "teacher1" 1700000000000)).teacherId = "teacher1" ∧
    (buildAttendance sampleStudent sampleTime none
        (generateCode "teacher1" 1700000000000)).sessionId
      = generateCode "teacher1" 1700000000000 ∧
    ∃ out, processAttendance sampleStudent true sampleTime 0 none
        (generateCode "teacher1" 1700000000000) ⟨[], []⟩ = Except.ok out :=
  c3_teacher_extraction "teacher1" 1700000000000 sampleStudent true sampleTime 0
    none ⟨[], []⟩ (by decide) (by decide)

/-- C4 counterexample: the non-empty code `"ABCDEF"` contains no `-`
separator, yet building does not fail — the record is queued with the whole
code as teacher identity. -/
theorem c4_counterexample :
    processAttendance sampleStudent true sampleTime 0 none "ABCDEF" ⟨[], []⟩ =
      Except.ok ⟨[buildAttendance sampleStudent sampleTime none "ABCDEF"], []⟩ := by
  rfl

/-- C4 amended: building an attendance record fails with the malformed-code
error exactly when the prefix of the code before the first `-` is empty, i.e.
when the code is empty or starts with `-`; a non-empty code without a `-`
separator is accepted, with the whole code as teacher identity. -/
theorem c4_malformed_amended (user : User) (isOffline : Bool) (now : String)
    (nowId : Nat) (loc : Option Location) (code : String) (s : ScanState) :
    (processAttendance user isOffline now nowId loc code s
        = Except.error "Invalid QR code format.") ↔ firstField code = "" := by
  constructor
  · intro h
    by_contra hne
    have hg : ¬ (firstField code = "" ∨ code = "") := by
      push_neg
      refine ⟨hne, ?_⟩
      intro hc
      exact hne (by rw [hc]; rfl)
    simp only [processAttendance] at h
    rw [if_neg hg] at h
    cases isOffline <;> simp at h
  · intro h
    simp only [processAttendance]
    rw [if_pos (Or.inl h)]

/-- C1: records enqueued while offline and then drained after reconnect are
submitted exactly once each, in insertion order; every stored record equals
the enqueued one modulo the identity `markAttendance` assigns; and when every
submission succeeds the pending queue is set to empty. -/
theorem c1_enqueue_drain_roundtrip (rs : List AttendanceData)
    (assignId : Nat → Nat) (store : List AttendanceRecord) :
    (syncOfflineData false (fun _ => true) assignId (rs.foldl enqueue []) store).submitted = rs ∧
    (syncOfflineData false (fun _ => true) assignId (rs.foldl enqueue []) store).pending = [] ∧
    (syncOfflineData false (fun _ => true) assignId (rs.foldl enqueue []) store).store.map
        AttendanceRecord.data
      = store.map AttendanceRecord.data ++ rs := by
  have hq : rs.foldl enqueue [] = rs := by simpa using foldl_enqueue rs []
  rw [hq]
  by_cases hrs : rs = []
  · subst hrs
    simp [syncOfflineData]
  · have hlen : rs.length > 0 := List.length_pos.mpr hrs
    unfold syncOfflineData
    rw [if_pos (⟨hlen, rfl⟩ : rs.length > 0 ∧ (false = false)),
      if_pos (allOk_true rs.length)]
    refine ⟨rfl, rfl, ?_⟩
    rw [List.map_append, storedBatch_map_data, successData_all_true]

/-- C2: when any submission of a drained batch fails, the pending queue after
settling equals the queue before the drain — nothing removed, nothing
duplicated, including the records whose own submissions succeeded. -/
theorem c2_failed_drain_preserves_queue (ok : Nat → Bool) (assignId : Nat → Nat)
    (pending : List AttendanceData) (store : List AttendanceRecord)
    (hfail : allOk ok pending.length = false) :
    (syncOfflineData false ok assignId pending store).pending = pending := by
  unfold syncOfflineData
  by_cases hg : pending.length > 0 ∧ (false = false)
  · rw [if_pos hg, if_neg (by simp [hfail])]
  · rw [if_neg hg]

/-- Witness for C2: a batch of three queued records with two successes and one
failure keeps all three original records queued. -/
theorem c2_failed_drain_preserves_queue_witness :
    allOk (fun i => i != 2) ([sampleData, sampleData2, sampleData3].length) = false ∧
    (syncOfflineData false (fun i => i != 2) id
        [sampleData, sampleData2, sampleData3] []).pending
      = [sampleData, sampleData2, sampleData3] :=
  ⟨by decide,
   c2_failed_drain_preserves_queue (fun i => i != 2) id
     [sampleData, sampleData2, sampleData3] [] (by decide)⟩

/-- C5: the sync coordinator never submits while offline — offline it is a
no-op on both queue and store; any run that submits anything was online with a
non-empty queue; and a capture processed while offline only appends to the
pending queue, leaving the remote store untouched. -/
theorem c5_no_submission_while_offline (ok : Nat → Bool) (assignId : Nat → Nat)
    (pending : List AttendanceData) (store : List AttendanceRecord) (user : User)
    (now : String) (nowId : Nat) (loc : Option Location) (code : String) :
    syncOfflineData true ok assignId pending store
      = { submitted := [], pending := pending, store := store } ∧
    (∀ isOffline : Bool,
      (syncOfflineData isOffline ok assignId pending store).submitted ≠ [] →
        isOffline = false ∧ pending ≠ []) ∧
    (∀ out, processAttendance user true now nowId loc code ⟨pending, store⟩
        = Except.ok out →
      out.store = store ∧ out.pending = pending ++ [buildAttendance user now loc code]) := by
  refine ⟨?_, ?_, ?_⟩
  · simp [syncOfflineData]
  · intro isOffline hsub
    cases isOffline
    · refine ⟨rfl, ?_⟩
      by_cases hg : pending.length > 0 ∧ (false = false)
      · exact List.length_pos.mp hg.1
      · unfold syncOfflineData at hsub
        rw [if_neg hg] at hsub
        simp at hsub
    · simp [syncOfflineData] at hsub
  · intro out hout
    simp only [processAttendance] at hout
    by_cases hg : firstField code = "" ∨ code = ""
    · rw [if_pos hg] at hout
      simp at hout
    · rw [if_neg hg] at hout
      have hcase : (⟨pending ++ [buildAttendance user now loc code], store⟩ : ScanState)
          = out := by
        simpa using hout
      rw [← hcase]
      exact ⟨rfl, rfl⟩

/-- Witness for C5: the offline no-op, a concrete online drain, and a concrete
offline capture. -/
theorem c5_no_submission_while_offline_witness :
    syncOfflineData true (fun _ => true) id [sampleData] []
      = { submitted := [], pending := [sampleData], store := [] } ∧
    (false = false ∧ ([sampleData] : List AttendanceData) ≠ []) ∧
    (ScanState.store ⟨[sampleData] ++ [buildAttendance sampleStudent sampleTime none sampleCode], []⟩
        = [] ∧
     ScanState.pending ⟨[sampleData] ++ [buildAttendance sampleStudent sampleTime none sampleCode], []⟩
        = [sampleData] ++ [buildAttendance sampleStudent sampleTime none sampleCode]) :=
  ⟨(c5_no_submission_while_offline (fun _ => true) id [sampleData] [] sampleStudent
      sampleTime 0 none sampleCode).1,
   (c5_no_submission_while_offline (fun _ => true) id [sampleData] [] sampleStudent
      sampleTime 0 none sampleCode).2.1 false (by decide),
   (c5_no_submission_while_offline (fun _ => true) id [sampleData] [] sampleStudent
      sampleTime 0 none sampleCode).2.2
     ⟨[sampleData] ++ [buildAttendance sampleStudent sampleTime none sampleCode], []⟩ rfl⟩

/-- C6: when the user marks attendance without location on a valid pending
scan, the handler reruns the normal processing path with a `null` location;
the built record has `location` exactly `none`; offline it is queued and
online it is submitted through that same path; and in general the builder
stores exactly the location it was given — a complete pair or `none`, never
partially populated. -/
theorem c6_mark_without_location (user : User) (isOffline : Bool) (now : String)
    (nowId : Nat) (code : String) (s : ScanState)
    (hvalid : firstField code ≠ "") :
    (buildAttendance user now none code).location = none ∧
    handleMarkWithoutLocation user isOffline now nowId (some code) s
      = processAttendance user isOffline now nowId none code s ∧
    (isOffline = true → processAttendance user isOffline now nowId none code s
      = Except.ok ⟨s.pending ++ [buildAttendance user now none code], s.store⟩) ∧
    (isOffline = false → processAttendance user isOffline now nowId none code s
      = Except.ok ⟨s.pending,
          s.store ++ [freshRecord nowId (buildAttendance user now none code)]⟩) ∧
    (∀ (u : User) (n : String) (l : Option Location) (c : String),
      (buildAttendance u n l c).location = l) := by
  have hcode : code ≠ "" := fun hc => hvalid (by rw [hc]; rfl)
  have hg : ¬ (firstField code = "" ∨ code = "") := by
    push_neg
    exact ⟨hvalid, hcode⟩
  refine ⟨rfl, rfl, ?_, ?_, fun u n l c => rfl⟩
  · intro hoff
    subst hoff
    simp only [processAttendance]
    rw [if_neg hg]
    rfl
  · intro hon
    subst hon
    simp only [processAttendance]
    rw [if_neg hg]
    rfl

/-- Witness for C6: marking without location on the sample session code while
offline queues a locationless record. -/
theorem c6_mark_without_location_witness :
    (buildAttendance sampleStudent sampleTime none sampleCode).location = none ∧
    handleMarkWithoutLocation sampleStudent true sampleTime 0 (some sampleCode) ⟨[], []⟩
      = processAttendance sampleStudent true sampleTime 0 none sampleCode ⟨[], []⟩ ∧
    processAttendance sampleStudent true sampleTime 0 none sampleCode ⟨[], []⟩
      = Except.ok ⟨[] ++ [buildAttendance sampleStudent sampleTime none sampleCode], []⟩ := by
  have T := c6_mark_without_location sampleStudent true sampleTime 0 sampleCode
    ⟨[], []⟩ (by decide)
  exact ⟨T.1, T.2.1, T.2.2.1 rfl⟩

/-- C7: the remote store is not idempotent — submitting the same record twice
appends two entries, each carrying the data submitted and an identity fresh
from the clock, distinct whenever the two clock readings differ; consequently
a whole-batch retry after a drain with failures stores the records accepted in
the first round a second time. -/
theorem c7_store_not_idempotent (r : AttendanceData) (store : List AttendanceRecord)
    (t1 t2 : Nat) (hne : t1 ≠ t2) (ok1 : Nat → Bool) (assignId1 assignId2 : Nat → Nat)
    (pending : List AttendanceData) (store0 : List AttendanceRecord)
    (hfail : allOk ok1 pending.length = false) :
    (markAttendance t2 r (markAttendance t1 r store).2).2
        = store ++ [freshRecord t1 r, freshRecord t2 r] ∧
    (freshRecord t1 r).data = r ∧
    (freshRecord t2 r).data = r ∧
    freshRecord t1 r ≠ freshRecord t2 r ∧
    ((syncOfflineData false (fun _ => true) assignId2
        (syncOfflineData false ok1 assignId1 pending store0).pending
        (syncOfflineData false ok1 assignId1 pending store0).store).store).map
          AttendanceRecord.data
      = store0.map AttendanceRecord.data ++ successData ok1 pending ++ pending := by
  have hpne : pending ≠ [] := by
    intro hp
    subst hp
    simp [allOk] at hfail
  have hlen : pending.length > 0 := List.length_pos.mpr hpne
  refine ⟨by simp [markAttendance], rfl, rfl,
    fun h => hne (attId_inj (congrArg AttendanceRecord.id h)), ?_⟩
  have hr1 : syncOfflineData false ok1 assignId1 pending store0
      = ⟨pending, pending, store0 ++ storedBatch ok1 assignId1 pending⟩ := by
    unfold syncOfflineData
    rw [if_pos (⟨hlen, rfl⟩ : pending.length > 0 ∧ (false = false)),
      if_neg (by simp [hfail])]
  rw [hr1]
  unfold syncOfflineData
  rw [if_pos (⟨hlen, rfl⟩ : pending.length > 0 ∧ (false = false)),
    if_pos (allOk_true pending.length)]
  simp [List.map_append, storedBatch_map_data, successData_all_true, List.append_assoc]

/-- Witness for C7: re-submitting the sample record at clock readings 0 and 1,
and retrying a batch of one after its single submission failed. -/
theorem c7_store_not_idempotent_witness :
    (markAttendance 1 sampleData (markAttendance 0 sampleData []).2).2
        = [] ++ [freshRecord 0 sampleData, freshRecord 1 sampleData] ∧
    (freshRecord 0 sampleData).data = sampleData ∧
    (freshRecord 1 sampleData).data = sampleData ∧
    freshRecord 0 sampleData ≠ freshRecord 1 sampleData ∧
    ((syncOfflineData false (fun _ => true) id
        (syncOfflineData false (fun _ => false) id [sampleData] []).pending
        (syncOfflineData false (fun _ => false) id [sampleData] []).store).store).map
          AttendanceRecord.data
      = ([] : List AttendanceRecord).map AttendanceRecord.data
          ++ successData (fun _ => false) [sampleData] ++ [sampleData] :=
  c7_store_not_idempotent sampleData [] 0 1 (by decide) (fun _ => false) id id
    [sampleData] [] (by decide)

/-- C8 is refuted by the code: when the durable storage write fails, the
persistence helper catches the error, only logs it, and reports success to
the caller — the durable contents remain as before, so the newly written
value (including any just-enqueued record) is silently dropped rather than
the failure being surfaced. -/
theorem c8_storage_write_failure_swallowed (durable value : List AttendanceData) :
    setStoredData true durable value = (durable, none) := by
  rfl

/-- C9 counterexample: with a drain of `[sampleData]` in flight and
`sampleData2` enqueued mid-drain, after an all-success drain the record
`sampleData2` is gone from the queue, was never submitted, and is not in the
store — it is lost. -/
theorem c9_counterexample :
    (drainWithMidEnqueue (fun _ => true) id [sampleData] [sampleData2] []).pending = [] ∧
    sampleData2 ∉ ((drainWithMidEnqueue (fun _ => true) id [sampleData] [sampleData2] []).store.map
        AttendanceRecord.data) ∧
    sampleData2 ∉ (drainWithMidEnqueue (fun _ => true) id [sampleData] [sampleData2] []).submitted := by
  decide

/-- C9 amended: a record enqueued while a drain is in flight is never
duplicated in storage — the drain stores only records of its snapshot — but it
is not always preserved: when every submission of the snapshot succeeds the
post-drain clear empties the whole live queue, losing the mid-drain record;
it survives (deferred to the next drain) exactly when some submission fails,
or when no drain was running. -/
theorem c9_mid_enqueue_amended (ok : Nat → Bool) (assignId : Nat → Nat)
    (snapshot mid : List AttendanceData) (store : List AttendanceRecord) :
    ((drainWithMidEnqueue ok assignId snapshot mid store).store.map AttendanceRecord.data
       = store.map AttendanceRecord.data ++ successData ok snapshot) ∧
    (snapshot ≠ [] → allOk ok snapshot.length = false →
       (drainWithMidEnqueue ok assignId snapshot mid store).pending = snapshot ++ mid) ∧
    (snapshot ≠ [] → allOk ok snapshot.length = true →
       (drainWithMidEnqueue ok assignId snapshot mid store).pending = []) ∧
    (snapshot = [] → (drainWithMidEnqueue ok assignId snapshot mid store).pending = mid) := by
  unfold drainWithMidEnqueue
  by_cases hsnap : snapshot.length > 0
  · have hnenil : snapshot ≠ [] := List.length_pos.mp hsnap
    by_cases hall : allOk ok snapshot.length = true
    · rw [if_pos hsnap, if_pos hall]
      refine ⟨by simp [List.map_append, storedBatch_map_data], ?_, fun _ _ => rfl, ?_⟩
      · intro _ hfalse
        rw [hall] at hfalse
        cases hfalse
      · intro hnil
        exact absurd hnil hnenil
    · rw [if_pos hsnap, if_neg hall]
      refine ⟨by simp [List.map_append, storedBatch_map_data], fun _ _ => rfl, ?_, ?_⟩
      · intro _ htrue
        exact absurd htrue hall
      · intro hnil
        exact absurd hnil hnenil
  · rw [if_neg hsnap]
    have hnil : snapshot = [] := by
      cases snapshot with
      | nil => rfl
      | cons a t => simp at hsnap
    subst hnil
    exact ⟨by simp [successData], fun hne => absurd rfl hne, fun hne => absurd rfl hne,
      fun _ => rfl⟩

/-- Witness for C9 (amended): with the single snapshot submission failing, the
mid-drain record `sampleData2` survives in the queue and nothing of it reaches
the store. -/
theorem c9_mid_enqueue_amended_witness :
    ((drainWithMidEnqueue (fun _ => false) id [sampleData] [sampleData2] []).store.map
        AttendanceRecord.data
      = ([] : List AttendanceRecord).map AttendanceRecord.data
          ++ successData (fun _ => false) [sampleData]) ∧
    (drainWithMidEnqueue (fun _ => false) id [sampleData] [sampleData2] []).pending
      = [sampleData] ++ [sampleData2] := by
  have T := c9_mid_enqueue_amended (fun _ => false) id [sampleData] [sampleData2] []
  exact ⟨T.1, T.2.1 (by decide) (by decide)⟩

/-- C10: every successful login — the hard-coded admin as well as a teacher or
student matched case-insensitively by name with the right password — returns a
user object whose password field is absent. -/
theorem c10_login_strips_password (teachers students : List User)
    (identifier pw : String) (u : User)
    (h : login teachers students identifier pw = Except.ok u) :
    u.password = none := by
  unfold login at h
  split at h
  · have hu : MOCK_ADMIN = u := by simpa using h
    rw [← hu]
    rfl
  · split at h
    · split at h
      · rename_i v _ _
        have hu : stripPassword v = u := by simpa using h
        rw [← hu]
        rfl
      · simp at h
    · simp at h

/-- Witness for C10: logging the seeded teacher in by lower-cased name returns
the teacher without a password. -/
theorem c10_login_strips_password_witness :
    (stripPassword sampleTeacher).password = none :=
  c10_login_strips_password [sampleTeacher] [] "dr. evelyn reed" "password123"
    (stripPassword sampleTeacher) (by rfl)

end Attendance
